import Mathlib

/-!
Verification development for the ObsidianScripts repository.

The Python scripts are embedded shallowly over `List Char`.  Python's `re`
module is modelled by a small backtracking regular-expression engine
(`Re` / `reM`) whose alternative order matches Python's (greedy quantifiers
try the longest continuation first, lazy quantifiers the shortest), so the
leftmost match found by `reSearch` and the non-overlapping scan `reScanF`
agree with `re.search` / `re.findall` / `re.finditer` / `re.sub` on the
inputs considered here.  Character classes are the ASCII reading of the
scripts' patterns (the vault content they match is ASCII plus the arrow
characters used by navigation rows, on which the classes agree with
Python's Unicode-aware `\w` and `\s`).  Filesystem effects are reified as
lists of `FsWrite` records.
-/

set_option maxRecDepth 100000

namespace OV

/-- Characters of a string literal. -/
def strL (s : String) : List Char := s.data

/-- Slice `full[st:en]` in Python notation. -/
def sliceL (full : List Char) (st en : Nat) : List Char :=
  (full.drop st).take (en - st)

/-- ASCII word character, the `\w` class of the scripts' patterns. -/
def isWordChar (c : Char) : Bool :=
  c.isAlpha || c.isDigit || c = '_'

/-- The `\s` whitespace class (also Python's `str.strip` default set). -/
def pyIsSpace (c : Char) : Bool :=
  c = ' ' || c = '\t' || c = '\n' || c = '\r' || c = '\x0b' || c = '\x0c'

/-- Python `str.strip()`. -/
def pyStrip (s : List Char) : List Char :=
  ((s.dropWhile pyIsSpace).reverse.dropWhile pyIsSpace).reverse

/-- Python's substring test `needle in hay`. -/
def containsSub (hay needle : List Char) : Bool :=
  match hay with
  | [] => needle.isPrefixOf ([] : List Char)
  | c :: t => if needle.isPrefixOf (c :: t) then true else containsSub t needle

/-- First index at or after the running index `i` where `pat` occurs in `s`. -/
def indexOfAux (pat : List Char) : List Char → Nat → Option Nat
  | [], i => if pat.isPrefixOf ([] : List Char) then some i else none
  | c :: t, i => if pat.isPrefixOf (c :: t) then some i else indexOfAux pat t (i + 1)

/-- Python `str.find(pat, start)`, with `none` for `-1`. -/
def indexOfFrom (full pat : List Char) (start : Nat) : Option Nat :=
  indexOfAux pat (full.drop start) start

/-- Python `str.rindex(pat)`; the scripts only call it when `pat` occurs,
so the missing case (an exception in Python) is defaulted to `0`. -/
def rIndexOfSub (full pat : List Char) : Nat :=
  (((List.range (full.length + 1)).filter
    (fun i => pat.isPrefixOf (full.drop i))).getLast?).getD 0

/-- Python `str.split(sep, 2)`. -/
def pySplit2 (s sep : List Char) : List (List Char) :=
  match indexOfFrom s sep 0 with
  | none => [s]
  | some i =>
    let rest := s.drop (i + sep.length)
    match indexOfFrom rest sep 0 with
    | none => [s.take i, rest]
    | some j => [s.take i, rest.take j, rest.drop (j + sep.length)]

/-- Worker for `replaceAll`; `gas` bounds the number of consumed
characters (each step consumes at least one), keeping the recursion
structural so that it reduces inside the kernel. -/
def replaceAllAux (old new : List Char) : Nat → List Char → List Char
  | 0, s => s
  | gas + 1, s =>
    match s with
    | [] => []
    | c :: t =>
      if !old.isEmpty && old.isPrefixOf (c :: t) then
        new ++ replaceAllAux old new gas (t.drop (old.length - 1))
      else
        c :: replaceAllAux old new gas t

/-- Python `str.replace(old, new)`: every non-overlapping occurrence,
scanning left to right.  (The scripts never call it with an empty `old`,
so that corner is mapped to the identity.) -/
def replaceAll (old new : List Char) (s : List Char) : List Char :=
  replaceAllAux old new s.length s

/-- Regular expressions as used by the scripts: literals, character
classes, sequencing, greedy `?` `*` `+`, lazy `*?`, numbered groups, a
single-character negative lookbehind, negative lookahead, and `\b`. -/
inductive Re where
  | eps
  | lit (c : Char)
  | cls (p : Char → Bool)
  | seq (a b : Re)
  | opt (a : Re)
  | star (a : Re)
  | plus (a : Re)
  | lstar (a : Re)
  | group (n : Nat) (a : Re)
  | nlb (p : Char → Bool)
  | nla (a : Re)
  | wb

/-- Captured groups: `(group index, start offset, end offset)`, most
recent first. -/
abbrev Caps := List (Nat × Nat × Nat)

/-- Backtracking matcher in continuation-passing style.  State is the
remaining input `s`, the absolute offset `i`, and the previously consumed
character `prev` (for lookbehind and `\b`).  Greedy constructs try the
longer continuation first, mirroring Python's backtracking order; `fuel`
only bounds the nesting depth and is chosen large enough by the callers. -/
def reM : Nat → Re → List Char → Nat → Option Char → Caps →
    (List Char → Nat → Option Char → Caps → Option (Nat × Caps)) → Option (Nat × Caps)
  | 0, _, _, _, _, _, _ => none
  | fuel + 1, r, s, i, prev, caps, k =>
    match r with
    | .eps => k s i prev caps
    | .lit c =>
      match s with
      | [] => none
      | c2 :: t => if c2 = c then k t (i + 1) (some c2) caps else none
    | .cls p =>
      match s with
      | [] => none
      | c2 :: t => if p c2 then k t (i + 1) (some c2) caps else none
    | .seq a b =>
      reM fuel a s i prev caps (fun s2 i2 p2 c2 => reM fuel b s2 i2 p2 c2 k)
    | .opt a =>
      match reM fuel a s i prev caps k with
      | some res => some res
      | none => k s i prev caps
    | .star a =>
      match reM fuel a s i prev caps (fun s2 i2 p2 c2 =>
          if i2 = i then none else reM fuel (.star a) s2 i2 p2 c2 k) with
      | some res => some res
      | none => k s i prev caps
    | .plus a =>
      reM fuel a s i prev caps (fun s2 i2 p2 c2 => reM fuel (.star a) s2 i2 p2 c2 k)
    | .lstar a =>
      match k s i prev caps with
      | some res => some res
      | none =>
        reM fuel a s i prev caps (fun s2 i2 p2 c2 =>
          if i2 = i then none else reM fuel (.lstar a) s2 i2 p2 c2 k)
    | .group n a =>
      reM fuel a s i prev caps (fun s2 i2 p2 c2 => k s2 i2 p2 ((n, i, i2) :: c2))
    | .nlb p =>
      match prev with
      | none => k s i prev caps
      | some c => if p c then none else k s i prev caps
    | .nla a =>
      match reM fuel a s i prev caps (fun _ i2 _ c2 => some (i2, c2)) with
      | some _ => none
      | none => k s i prev caps
    | .wb =>
      let pw := match prev with | none => false | some c => isWordChar c
      let nw := match s with | [] => false | c :: _ => isWordChar c
      if pw = nw then none else k s i prev caps

/-- Fuel bound: generous for the patterns and inputs at hand (depth grows
linearly in pattern size plus consumed characters). -/
def bigF (s : List Char) : Nat := 8 * s.length + 800

/-- Leftmost match attempt from offset `i` onward (Python `re.search`
semantics): returns `(start, end, captures)` of the first position whose
match attempt succeeds. -/
def reSearchFrom (fuel : Nat) (r : Re) : List Char → Nat → Option Char → Option (Nat × Nat × Caps)
  | s, i, prev =>
    match reM fuel r s i prev [] (fun _ i2 _ c2 => some (i2, c2)) with
    | some (e, caps) => some (i, e, caps)
    | none =>
      match s with
      | [] => none
      | c :: t => reSearchFrom fuel r t (i + 1) (some c)

/-- Python `re.search`. -/
def reSearch (r : Re) (full : List Char) : Option (Nat × Nat × Caps) :=
  reSearchFrom (bigF full) r full 0 none

/-- Character just before offset `i` of the original input. -/
def prevCharAt (full : List Char) (i : Nat) : Option Char :=
  if i = 0 then none else (full.drop (i - 1)).head?

/-- All non-overlapping leftmost matches, resuming after each match end
(Python `re.findall` / `re.finditer` / the scan behind `re.sub`). -/
def reScanAux (fuel : Nat) (r : Re) (full : List Char) : Nat → Nat → List (Nat × Nat × Caps)
  | 0, _ => []
  | gas + 1, i =>
    match reSearchFrom fuel r (full.drop i) i (prevCharAt full i) with
    | none => []
    | some (st, en, caps) =>
      (st, en, caps) :: reScanAux fuel r full gas (if en ≤ st then en + 1 else en)

/-- All matches of `r` in `full`. -/
def reScanF (r : Re) (full : List Char) : List (Nat × Nat × Caps) :=
  reScanAux (bigF full) r full (full.length + 2) 0

/-- Replace the recorded match spans by `repl`, keeping everything else. -/
def spliceMatches (full repl : List Char) : Nat → List (Nat × Nat × Caps) → List Char
  | i, [] => full.drop i
  | i, (st, en, _) :: rest =>
    (full.drop i).take (st - i) ++ repl ++ spliceMatches full repl en rest

/-- Python `re.sub(r, repl, s)` for a constant replacement string. -/
def reSubAllF (r : Re) (repl s : List Char) : List Char :=
  spliceMatches s repl 0 (reScanF r s)

/-- Literal sequence of characters as a regex (the effect of `re.escape`). -/
def reLits : List Char → Re
  | [] => .eps
  | c :: t => .seq (.lit c) (reLits t)

/-- Value of capture group `n` (Python `match.group(n)`):
`none` when the group did not participate in the match. -/
def capGroup (content : List Char) (caps : Caps) (n : Nat) : Option (List Char) :=
  (caps.find? (fun t => t.1 = n)).map (fun t => sliceL content t.2.1 t.2.2)

/-- Filesystem text encodings used by `clean_done_tags_vault.py`. -/
inductive Enc where
  | utf8
  | latin1
deriving DecidableEq

/-- One reified filesystem write (backup or in-place rewrite). -/
structure FsWrite where
  wpath : List Char
  enc : Enc
  wcontent : List Char
deriving DecidableEq

/-- The backup-then-write block shared verbatim by the scripts:
nothing under `--dry-run`, otherwise an optional backup of the original
followed by the rewrite, both in encoding `e`. -/
def writeSet (backupPath path orig modified : List Char) (e : Enc) (b d : Bool) :
    List FsWrite :=
  if d then []
  else (if b then [⟨backupPath, e, orig⟩] else []) ++ [⟨path, e, modified⟩]

/-- Segment characters of nested tags, `[a-zA-Z0-9_.-]`
(`convert_tags_to_wikilinks.py`, line 97). -/
def isSegChar (c : Char) : Bool :=
  c.isAlpha || c.isDigit || c = '_' || c = '.' || c = '-'

/-- Exact-match tag pattern `(?<!\w)` + escaped tag + `(?!\w)`
(`convert_tags_to_wikilinks.py`, line 94). -/
def tagExactRe (tag : List Char) : Re :=
  .seq (.nlb isWordChar) (.seq (reLits tag) (.nla (.cls isWordChar)))

/-- Hierarchical tag pattern
`(?<!\w)` + escaped tag + `(?:/[a-zA-Z0-9_.-]+)*(?!\w)`
(`convert_tags_to_wikilinks.py`, line 97). -/
def tagHierRe (tag : List Char) : Re :=
  .seq (.nlb isWordChar) (.seq (reLits tag)
    (.seq (.star (.seq (.lit '/') (.plus (.cls isSegChar)))) (.nla (.cls isWordChar))))

/-- Front-matter split of `convert_tag_to_wikilink` (lines 80-89):
`content.startswith("---")` plus `content.find("---", 3)`; the match is
`(yaml_content, body_content)` with the delimiters kept on the YAML side. -/
def convertSplit (content : List Char) : List Char × List Char :=
  if (strL ("---")).isPrefixOf content then
    match indexOfFrom content (strL ("---")) 3 with
    | some ye => (content.take (ye + 3), content.drop (ye + 3))
    | none => ([], content)
  else ([], content)

/-- Body rewrite of `convert_tag_to_wikilink` (lines 92-104): count the
pattern's matches and substitute `[[wikilink]]` for each. -/
def convertBody (tag wl : List Char) (em : Bool) (body : List Char) : List Char × Nat :=
  let r := if em then tagExactRe tag else tagHierRe tag
  let ms := reScanF r body
  (spliceMatches body (strL ("[[") ++ wl ++ strL ("]]")) 0 ms, ms.length)

/-- One iteration of the YAML front-matter loop of `convert_tag_to_wikilink`
(lines 113-142); state is `(in_tags_block, yaml_count, modified_yaml_lines)`. -/
def yamlLoopStep (tag wl yamlOrig : List Char) (em : Bool)
    (st : Bool × Nat × List (List Char)) (line : List Char) :
    Bool × Nat × List (List Char) :=
  let stripped := pyStrip line
  if (strL ("tags:")).isPrefixOf stripped then
    (true, st.2.1, st.2.2 ++ [line])
  else if st.1 = true ∧ (strL ("-")).isPrefixOf stripped = true then
    let tagInLine := pyStrip (stripped.drop 1)
    if tagInLine = pyStrip tag ∨ (em = false ∧ (pyStrip tag).isPrefixOf tagInLine = true) then
      if containsSub yamlOrig (strL ("related:")) = false then
        (st.1, st.2.1, st.2.2 ++ [strL ("related:\n  - \"[[") ++ wl ++ strL ("]]\"")])
      else
        (st.1, st.2.1 + 1, st.2.2)
    else
      (st.1, st.2.1, st.2.2 ++ [line])
  else
    if (strL ("related:")).isPrefixOf stripped = true ∧ st.2.1 > 0 then
      (false, 0, st.2.2 ++ [line, strL ("  - \"[[") ++ wl ++ strL ("]]\"")])
    else
      (false, st.2.1, st.2.2 ++ [line])

/-- YAML front-matter processing of `convert_tag_to_wikilink`
(lines 108-144): returns the rejoined YAML text and the final `yaml_count`. -/
def yamlLoop (tag wl yamlOrig : List Char) (em : Bool) : List Char × Nat :=
  let lines := yamlOrig.splitOn '\n'
  let fin := lines.foldl (yamlLoopStep tag wl yamlOrig em) (false, 0, [])
  (List.intercalate (strL ("\n")) fin.2.2, fin.2.1)

/-- Pure content transform of `convert_tag_to_wikilink` (lines 75-147):
the guard `if tag not in content`, the front-matter split, the body
substitution, the optional YAML pass, and the reassembled content together
with `tag_count + yaml_count`. -/
def convertTransform (tag wl : List Char) (cy em : Bool) (content : List Char) :
    List Char × Nat :=
  if containsSub content tag = false then (content, 0)
  else
    let sp := convertSplit content
    let br := convertBody tag wl em sp.2
    let yr := if cy = true ∧ sp.1 ≠ [] then yamlLoop tag wl sp.1 em else (sp.1, 0)
    (yr.1 ++ br.1, br.2 + yr.2)

/-- File-level behaviour of `convert_tag_to_wikilink` (lines 71-167):
result `(was_modified, count)` plus the reified writes (backup suffix
`"." + tag without "#" + ".backup"`, lines 152-160). -/
def convertFile (tag wl : List Char) (cy em b d : Bool) (path content : List Char) :
    (Bool × Nat) × List FsWrite :=
  if containsSub content tag = false then ((false, 0), [])
  else if content ≠ (convertTransform tag wl cy em content).1 then
    ((true, (convertTransform tag wl cy em content).2),
      writeSet (path ++ strL (".") ++ tag.filter (fun c => !(c = '#')) ++ strL (".backup"))
        path content (convertTransform tag wl cy em content).1 Enc.utf8 b d)
  else ((false, 0), [])

/-- `extract_content_parts` of `add_yaml_to_files_without_yaml.py`
(lines 94-122): `content.startswith("---")`, then `content.split("---", 2)`;
with at least three parts the answer is `(parts[1].strip(), parts[2].strip())`,
otherwise `("", content.strip())`. -/
def extractContentParts (content : List Char) : List Char × List Char :=
  if (strL ("---")).isPrefixOf content then
    match pySplit2 content (strL ("---")) with
    | [_, p1, p2] => (pyStrip p1, pyStrip p2)
    | _ => ([], pyStrip content)
  else ([], pyStrip content)

/-- Name class `[^\]/|]` of `BROKEN_NAV_PATTERN` (`fix_daily_navigation.py`,
line 48). -/
def navNameChar (c : Char) : Bool := !(c = ']' || c = '/' || c = '|')

/-- Alias class `[^\]/]` of `BROKEN_NAV_PATTERN`. -/
def navAliasChar (c : Char) : Bool := !(c = ']' || c = '/')

/-- `\s*`. -/
def navSpaces : Re := .star (.cls pyIsSpace)

/-- One slot `\[\[([^\]/|]+)(?:\s*\|([^\]/]+))?` of `BROKEN_NAV_PATTERN`. -/
def navSlot (nameIdx aliasIdx : Nat) : Re :=
  .seq (.lit '[') (.seq (.lit '[')
    (.seq (.group nameIdx (.plus (.cls navNameChar)))
      (.opt (.seq navSpaces (.seq (.lit '|') (.group aliasIdx (.plus (.cls navAliasChar))))))))

/-- Slot separator `\s*\/\s*` of `BROKEN_NAV_PATTERN`. -/
def navSep : Re := .seq navSpaces (.seq (.lit '/') navSpaces)

/-- `BROKEN_NAV_PATTERN` (`fix_daily_navigation.py`, line 48): four
bracketed slots with optional aliases between `←←` and `→→`. -/
def navRe : Re :=
  .seq (.lit '←') (.seq (.lit '←') (.seq navSpaces
    (.seq (navSlot 1 2) (.seq navSep (.seq (navSlot 3 4) (.seq navSep (.seq (navSlot 5 6)
      (.seq navSep (.seq (navSlot 7 8) (.seq navSpaces (.seq (.lit '→') (.lit '→'))))))))))))

/-- Alias piece of the rebuilt row (`fix_daily_navigation.py`,
lines 83-104): a present alias is stripped and, when still non-empty,
rendered as `" |alias"`; an absent or blank alias contributes nothing. -/
def aliasPiece (o : Option (List Char)) : List Char :=
  match o with
  | none => []
  | some a =>
    let a2 := pyStrip a
    if a2 = [] then [] else strL (" |") ++ a2

/-- `fixed_nav_row` construction (`fix_daily_navigation.py`, lines 94-104),
with `WEEKLY_NOTES_DIR = "01 - Calendar/Weekly"` and
`DAILY_NOTES_DIR = "01 - Calendar/Daily"`. -/
def fixedNavRow (content : List Char) (caps : Caps) : List Char :=
  let nm := fun n => pyStrip ((capGroup content caps n).getD [])
  strL ("←← [[01 - Calendar/Weekly/") ++ nm 1 ++ aliasPiece (capGroup content caps 2) ++
  strL ("]] / [[01 - Calendar/Daily/") ++ nm 3 ++ aliasPiece (capGroup content caps 4) ++
  strL ("]] / [[01 - Calendar/Daily/") ++ nm 5 ++ aliasPiece (capGroup content caps 6) ++
  strL ("]] / [[01 - Calendar/Weekly/") ++ nm 7 ++ aliasPiece (capGroup content caps 8) ++
  strL ("]] →→")

/-- Content transform of `fix_navigation_links` (lines 63-125):
`re.search` for the broken row, rebuild it, then the literal
`content.replace(nav_row, fixed_nav_row)`; the result is paired with the
reported number of fixes (`1` when the text changed, else `0`). -/
def fixNavContent (content : List Char) : List Char × Nat :=
  match reSearch navRe content with
  | none => (content, 0)
  | some m =>
    let navRow := sliceL content m.1 m.2.1
    let modified := replaceAll navRow (fixedNavRow content m.2.2) content
    if content = modified then (content, 0) else (modified, 1)

/-- File-level behaviour of `fix_navigation_links`, with the reified
writes (backup suffix `".navfix.backup"`, lines 111-120). -/
def fixNavFile (b d : Bool) (path content : List Char) : (Bool × Nat) × List FsWrite :=
  match reSearch navRe content with
  | none => ((false, 0), [])
  | some m =>
    let navRow := sliceL content m.1 m.2.1
    let modified := replaceAll navRow (fixedNavRow content m.2.2) content
    if content = modified then ((false, 0), [])
    else
      ((true, 1), writeSet (path ++ strL (".navfix.backup")) path content modified Enc.utf8 b d)

/-- Path class `[^|\]]` of `WIKILINK_PATTERN` (`simplify_wikilinks.py`,
line 48). -/
def wkPathChar (c : Char) : Bool := !(c = '|' || c = ']')

/-- Note-name class `[^/\]|]` of `WIKILINK_PATTERN`. -/
def wkNameChar (c : Char) : Bool := !(c = '/' || c = ']' || c = '|')

/-- `WIKILINK_PATTERN = \[\[([^|\]]*?/+)([^/\]|]+)(?:\|[^|\]]*?)?\]\]`
(`simplify_wikilinks.py`, line 48). -/
def wikilinkRe : Re :=
  .seq (.lit '[') (.seq (.lit '[')
    (.seq (.group 1 (.seq (.lstar (.cls wkPathChar)) (.plus (.lit '/'))))
      (.seq (.group 2 (.plus (.cls wkNameChar)))
        (.seq (.opt (.seq (.lit '|') (.lstar (.cls wkPathChar))))
          (.seq (.lit ']') (.lit ']'))))))

/-- Per-match replacement of `simplify_wikilinks` (lines 81-94): with a
pipe, `"[[" + note_name + full_match[index("|") : rindex("]]")]`, else
`"[[" + note_name + "]]"`. -/
def simplifyOne (full g2 : List Char) : List Char :=
  if containsSub full (strL ("|")) then
    let p := (indexOfFrom full (strL ("|")) 0).getD 0
    let cI := rIndexOfSub full (strL ("]]"))
    strL ("[[") ++ g2 ++ ((full.take cI).drop p)
  else strL ("[[") ++ g2 ++ strL ("]]")

/-- The parallel `matches` / `replacements` lists of `simplify_wikilinks`
(lines 77-94), as pairs. -/
def simplifyMatches (content : List Char) : List (List Char × List Char) :=
  (reScanF wikilinkRe content).map (fun m =>
    let full := sliceL content m.1 m.2.1
    let g2 := (capGroup content m.2.2 2).getD []
    (full, simplifyOne full g2))

/-- Replacement loop of `simplify_wikilinks` (lines 102-104): iterated
literal `str.replace` of each matched text. -/
def simplifyModified (content : List Char) : List Char :=
  (simplifyMatches content).foldl (fun acc pr => replaceAll pr.1 pr.2 acc) content

/-- File-level behaviour of `simplify_wikilinks` (lines 64-125): the size
guard (`sizeKB` stands for `os.path.getsize(file_path) / 1024`), the
no-match early return, and the write block with backup suffix `".backup"`. -/
def simplifyFile (b d : Bool) (maxKB sizeKB : Nat) (path content : List Char) :
    (Bool × Nat) × List FsWrite :=
  if sizeKB > maxKB then ((false, 0), [])
  else if (simplifyMatches content).length = 0 then ((false, 0), [])
  else if content ≠ simplifyModified content then
    ((true, (simplifyMatches content).length),
      writeSet (path ++ strL (".backup")) path content (simplifyModified content) Enc.utf8 b d)
  else ((false, 0), [])

/-- `DONE_WITH_PARENS_PATTERN = #done\s*\([^)]*\)`
(`clean_done_tags_vault.py`, line 45). -/
def doneParensRe : Re :=
  .seq (reLits (strL ("#done"))) (.seq navSpaces
    (.seq (.lit '(') (.seq (.star (.cls (fun c => !(c = ')')))) (.lit ')'))))

/-- `DONE_STANDALONE_PATTERN = #done\b(?!\s*\()`
(`clean_done_tags_vault.py`, lines 46-48). -/
def doneStandaloneRe : Re :=
  .seq (reLits (strL ("#done"))) (.seq .wb (.nla (.seq navSpaces (.lit '('))))

/-- Pure transform of `clean_done_tags` (lines 72-98): count both match
lists; every parenthesised match is removed by literal `str.replace`, then
each standalone match `m` is removed by `re.sub(r"\b" + re.escape(m) + r"\b", "")`. -/
def cleanDoneTransform (content : List Char) : List Char × Nat :=
  let mp := (reScanF doneParensRe content).map (fun m => sliceL content m.1 m.2.1)
  let ms := (reScanF doneStandaloneRe content).map (fun m => sliceL content m.1 m.2.1)
  let cnt := mp.length + ms.length
  if cnt = 0 then (content, 0)
  else
    let m1 := mp.foldl (fun acc mm => replaceAll mm [] acc) content
    let m2 := ms.foldl
      (fun acc mm => reSubAllF (.seq .wb (.seq (reLits mm) .wb)) [] acc) m1
    (m2, cnt)

/-- How one file's text is obtained by `clean_done_tags` (lines 64-65 and
127-131): a successful UTF-8 read, a read that only succeeds with the
latin-1 fallback after a `UnicodeDecodeError`, or a read whose exception
is caught by the blanket handlers (lines 169-174). -/
inductive ReadResult where
  | utf8 (s : List Char)
  | latin1Fallback (s : List Char)
  | unreadable
deriving DecidableEq

/-- File-level behaviour of `clean_done_tags` (lines 51-174): the UTF-8
branch writes backup and rewrite in UTF-8, the fallback branch repeats the
transform and writes both in latin-1 (lines 127-166), and any other failure
is caught, returning `(False, 0)` with no write. -/
def cleanDoneFile (path : List Char) (rr : ReadResult) (b d : Bool) :
    (Bool × Nat) × List FsWrite :=
  match rr with
  | .unreadable => ((false, 0), [])
  | .utf8 s =>
    if (cleanDoneTransform s).2 = 0 then ((false, 0), [])
    else if s ≠ (cleanDoneTransform s).1 then
      ((true, (cleanDoneTransform s).2),
        writeSet (path ++ strL (".backup")) path s (cleanDoneTransform s).1 Enc.utf8 b d)
    else ((false, 0), [])
  | .latin1Fallback s =>
    if (cleanDoneTransform s).2 = 0 then ((false, 0), [])
    else if s ≠ (cleanDoneTransform s).1 then
      ((true, (cleanDoneTransform s).2),
        writeSet (path ++ strL (".backup")) path s (cleanDoneTransform s).1 Enc.latin1 b d)
    else ((false, 0), [])

/-- `process_vault` of `clean_done_tags_vault.py` (lines 177-233): fold
over the enumerated files, collecting `(path, tags_removed)` for modified
files, the total removed, and the number of files processed. -/
def processVault (b d : Bool) : List (List Char × ReadResult) →
    List (List Char × Nat) × Nat × Nat
  | [] => ([], 0, 0)
  | f :: rest =>
    let r := cleanDoneFile f.1 f.2 b d
    let rr := processVault b d rest
    (if r.1.1 then (f.1, r.1.2) :: rr.1 else rr.1,
     (if r.1.1 then r.1.2 else 0) + rr.2.1,
     rr.2.2 + 1)

/-- Code-point lexicographic order on character lists (Python string `<=`). -/
def lexLe : List Char → List Char → Bool
  | [], _ => true
  | _ :: _, [] => false
  | a :: as, b :: bs => if a < b then true else if b < a then false else lexLe as bs

/-- The sort key order of `generate_tag_report`
(`tag_inventory.py`, line 124): Python's ascending order on the tuple
`(-count, tag)`, i.e. descending count with ties broken by ascending
lexicographic tag text. -/
def keyRel (a b : List Char × Nat) : Prop :=
  b.2 < a.2 ∨ (a.2 = b.2 ∧ lexLe a.1 b.1 = true)

instance : DecidableRel keyRel := fun a b =>
  inferInstanceAs (Decidable (b.2 < a.2 ∨ (a.2 = b.2 ∧ lexLe a.1 b.1 = true)))

/-- Table rows of `generate_tag_report` (`tag_inventory.py`, lines
119-124): keep the tags with at least `minCount` occurrences and sort with
`keyRel`.  Python's `sorted` builtin is modelled by insertion sort; on the
duplicate-free keys of a `Counter` the sorted permutation is unique, so any
sorting algorithm yields the same list. -/
def generateTagRows (items : List (List Char × Nat)) (minCount : Nat) :
    List (List Char × Nat) :=
  List.insertionSort keyRel (items.filter (fun it => decide (minCount ≤ it.2)))

/-- Every write produced by the shared backup-then-write block carries the
encoding it was invoked with. -/
theorem writeSet_enc (bp p o m : List Char) (e : Enc) (b d : Bool) (w : FsWrite)
    (hw : w ∈ writeSet bp p o m e b d) : w.enc = e := by
  unfold writeSet at hw
  split at hw
  · simp at hw
  · rcases List.mem_append.mp hw with h1 | h2
    · split at h1
      · rw [List.mem_singleton.mp h1]
      · simp at h1
    · rw [List.mem_singleton.mp h2]

/-- The code-point lexicographic order is total. -/
theorem lexLe_total : ∀ a b : List Char, lexLe a b = true ∨ lexLe b a = true := by
  intro a
  induction a with
  | nil => intro b; left; rfl
  | cons x xs ih =>
    intro b
    cases b with
    | nil => right; rfl
    | cons y ys =>
      by_cases h1 : x < y
      · left; simp [lexLe, h1]
      · by_cases h2 : y < x
        · right; simp [lexLe, h2]
        · have hxy : x = y := le_antisymm (not_lt.mp h2) (not_lt.mp h1)
          subst hxy
          rcases ih ys with h | h
          · left; simp [lexLe, lt_irrefl, h]
          · right; simp [lexLe, lt_irrefl, h]

/-- The code-point lexicographic order is transitive. -/
theorem lexLe_trans :
    ∀ a b c : List Char, lexLe a b = true → lexLe b c = true → lexLe a c = true := by
  intro a
  induction a with
  | nil => intro b c _ _; rfl
  | cons x xs ih =>
    intro b c h1 h2
    cases b with
    | nil => simp [lexLe] at h1
    | cons y ys =>
      cases c with
      | nil => simp [lexLe] at h2
      | cons z zs =>
        simp only [lexLe] at h1 h2 ⊢
        by_cases hxy : x < y
        · by_cases hyz : y < z
          · simp [lt_trans hxy hyz]
          · by_cases hzy : z < y
            · simp [hyz, hzy] at h2
            · have hyzeq : y = z := le_antisymm (not_lt.mp hzy) (not_lt.mp hyz)
              subst hyzeq
              simp [hxy]
        · by_cases hyx : y < x
          · simp [hxy, hyx] at h1
          · have hxyeq : x = y := le_antisymm (not_lt.mp hyx) (not_lt.mp hxy)
            subst hxyeq
            simp only [lt_irrefl, if_false] at h1
            by_cases hxz : x < z
            · simp [hxz]
            · by_cases hzx : z < x
              · simp [hxz, hzx] at h2
              · have hxzeq : x = z := le_antisymm (not_lt.mp hzx) (not_lt.mp hxz)
                subst hxzeq
                simp only [lt_irrefl, if_false] at h2 ⊢
                exact ih ys zs h1 h2

/-- The tag-report key order is total. -/
theorem keyRel_total : ∀ a b : List Char × Nat, keyRel a b ∨ keyRel b a := by
  intro a b
  rcases Nat.lt_trichotomy a.2 b.2 with h | h | h
  · right; left; exact h
  · rcases lexLe_total a.1 b.1 with hl | hl
    · left; right; exact ⟨h, hl⟩
    · right; right; exact ⟨h.symm, hl⟩
  · left; left; exact h

/-- The tag-report key order is transitive. -/
theorem keyRel_trans : ∀ a b c : List Char × Nat, keyRel a b → keyRel b c → keyRel a c := by
  intro a b c h1 h2
  rcases h1 with h1 | ⟨e1, l1⟩
  · rcases h2 with h2 | ⟨e2, l2⟩
    · left; omega
    · left; omega
  · rcases h2 with h2 | ⟨e2, l2⟩
    · left; omega
    · right; exact ⟨e1.trans e2, lexLe_trans a.1 b.1 c.1 l1 l2⟩

/-- Claim C1 (code bug): on Scenario A's input `"#project/alpha and #project"`
with tag `#project` and target `Projects`, exact-match mode does NOT leave
the nested tag untouched — the pattern `(?<!\w)#project(?!\w)` matches the
`#project` prefix of `#project/alpha` because `/` is not a word character,
so the code rewrites both occurrences, yielding
`"[[Projects]]/alpha and [[Projects]]"`; hierarchical mode yields
`"[[Projects]] and [[Projects]]"` as the claim states. -/
theorem convert_exact_match_rewrites_nested_tag_root :
    convertTransform (strL ("#project")) (strL ("Projects")) false true
        (strL ("#project/alpha and #project")) =
      (strL ("[[Projects]]/alpha and [[Projects]]"), 2) ∧
    convertTransform (strL ("#project")) (strL ("Projects")) false false
        (strL ("#project/alpha and #project")) =
      (strL ("[[Projects]] and [[Projects]]"), 2) := by
  constructor <;> decide

/-- Claim C2 (code bug): `fix_navigation_links` records exactly one match
(the first broken row, span `(0, 47)` here) but rewrites by literal
`str.replace`, so a second byte-identical broken row lying entirely outside
the recorded match span is rewritten as well — the rewrite is not confined
to the spans produced by the matcher. -/
theorem fix_navigation_rewrites_unmatched_literal_occurrence :
    (reSearch navRe (strL ("←← [[W1 |w1 / [[D1 |d1 / [[D2 |d2 / [[W2 |w2 →→\nmiddle\n←← [[W1 |w1 / [[D1 |d1 / [[D2 |d2 / [[W2 |w2 →→"))).map
        (fun m => (m.1, m.2.1)) = some (0, 47) ∧
    fixNavContent (strL ("←← [[W1 |w1 / [[D1 |d1 / [[D2 |d2 / [[W2 |w2 →→\nmiddle\n←← [[W1 |w1 / [[D1 |d1 / [[D2 |d2 / [[W2 |w2 →→")) =
      (strL ("←← [[01 - Calendar/Weekly/W1 |w1]] / [[01 - Calendar/Daily/D1 |d1]] / [[01 - Calendar/Daily/D2 |d2]] / [[01 - Calendar/Weekly/W2 |w2]] →→\nmiddle\n←← [[01 - Calendar/Weekly/W1 |w1]] / [[01 - Calendar/Daily/D1 |d1]] / [[01 - Calendar/Daily/D2 |d2]] / [[01 - Calendar/Weekly/W2 |w2]] →→"), 1) := by
  constructor <;> decide

/-- Claim C3, counterexample: tag conversion is not idempotent.  On
`"#a#a"` with tag `#a` the first pass converts only the first occurrence
(the second fails the lookbehind, being preceded by the word character
`a`), giving `"[[Projects]]#a"` — and a second pass then converts the
remaining occurrence (now preceded by `]`), reporting one further change
instead of zero. -/
theorem tag_conversion_second_pass_not_noop :
    convertTransform (strL ("#a")) (strL ("Projects")) false true (strL ("#a#a")) =
      (strL ("[[Projects]]#a"), 1) ∧
    convertTransform (strL ("#a")) (strL ("Projects")) false true (strL ("[[Projects]]#a")) =
      (strL ("[[Projects]][[Projects]]"), 1) := by
  constructor <;> decide

/-- Claim C3, amended: a second pass is a no-op (unchanged text, zero
count) whenever the rewritten text contains no further occurrence of the
rule's pattern — for tag conversion when the tag no longer occurs as a
substring, for the navigation fix when the broken-row pattern no longer
matches, and for wikilink simplification when the path-link pattern no
longer matches.  Unconditional idempotence fails (see the counterexample). -/
theorem rewrite_second_pass_noop_when_pattern_gone :
    ∀ (tag wl : List Char) (cy em : Bool) (content : List Char),
      (containsSub content tag = false →
        convertTransform tag wl cy em content = (content, 0)) ∧
      (reSearch navRe content = none → fixNavContent content = (content, 0)) ∧
      (simplifyMatches content = [] → simplifyModified content = content) := by
  intro tag wl cy em content
  refine ⟨fun h => ?_, fun h => ?_, fun h => ?_⟩
  · unfold convertTransform
    simp [h]
  · unfold fixNavContent
    rw [h]
  · unfold simplifyModified
    rw [h]
    rfl

/-- Witness for the amended C3 theorem at a concrete input. -/
theorem rewrite_second_pass_noop_when_pattern_gone_witness :
    convertTransform (strL ("#a")) (strL ("P")) false true (strL ("note")) =
      (strL ("note"), 0) ∧
    fixNavContent (strL ("note")) = (strL ("note"), 0) ∧
    simplifyModified (strL ("note")) = strL ("note") :=
  ⟨(rewrite_second_pass_noop_when_pattern_gone (strL ("#a")) (strL ("P")) false true
      (strL ("note"))).1 (by decide),
   (rewrite_second_pass_noop_when_pattern_gone (strL ("#a")) (strL ("P")) false true
      (strL ("note"))).2.1 (by decide),
   (rewrite_second_pass_noop_when_pattern_gone (strL ("#a")) (strL ("P")) false true
      (strL ("note"))).2.2 (by decide)⟩

/-- Claim C4, counterexample: on `"---x---y"` the first line is not
exactly `---`, yet `extract_content_parts` (which tests only
`content.startswith("---")`) reports the metadata block `"x"` and body
`"y"` rather than no metadata with the whole trimmed input as body. -/
theorem splitter_dash_start_counterexample :
    ((strL ("---x---y")).takeWhile (fun c => !(c = '\n')) ≠ strL ("---")) ∧
    extractContentParts (strL ("---x---y")) = (strL ("x"), strL ("y")) ∧
    extractContentParts (strL ("---x---y")) ≠ ([], pyStrip (strL ("---x---y"))) := by
  exact ⟨by decide, by decide, by decide⟩

/-- Claim C4, amended: detection triggers on the three-character prefix
`---`, not on the first line being exactly the delimiter; for any input
that does not start with the three characters `---`, the metadata block is
absent and the body is the entire trimmed input. -/
theorem splitter_without_dash_start_no_metadata :
    ∀ content : List Char,
      (strL ("---")).isPrefixOf content = false →
      extractContentParts content = ([], pyStrip content) := by
  intro content h
  unfold extractContentParts
  simp [h]

/-- Witness for the amended C4 theorem at a concrete input. -/
theorem splitter_without_dash_start_no_metadata_witness :
    extractContentParts (strL ("hello world")) = ([], pyStrip (strL ("hello world"))) :=
  splitter_without_dash_start_no_metadata (strL ("hello world")) (by decide)

/-- Claim C5: when the rewritten text equals the original, neither
`convert_tag_to_wikilink` nor `simplify_wikilinks` performs any filesystem
write or creates any backup, and the file is reported as not modified with
count zero, under every combination of the backup and dry-run flags. -/
theorem noop_short_circuit_no_writes :
    ∀ (tag wl : List Char) (cy em b d : Bool) (path content : List Char)
      (maxKB sizeKB : Nat),
      ((convertTransform tag wl cy em content).1 = content →
        convertFile tag wl cy em b d path content = ((false, 0), [])) ∧
      (simplifyModified content = content →
        simplifyFile b d maxKB sizeKB path content = ((false, 0), [])) := by
  intro tag wl cy em b d path content maxKB sizeKB
  constructor
  · intro h
    unfold convertFile
    split_ifs with h1 h2
    · rfl
    · exact absurd h.symm h2
    · rfl
  · intro h
    unfold simplifyFile
    split_ifs with h1 h2 h3
    · rfl
    · rfl
    · exact absurd h.symm h3
    · rfl

/-- Witness for C5: a file whose only tag occurrence is replaced by an
identical string (Scenario D) is skipped with no writes, and a file with
no path links likewise. -/
theorem noop_short_circuit_no_writes_witness :
    convertFile (strL ("[[X]]")) (strL ("X")) false true true false
        (strL ("n.md")) (strL ("[[X]]")) = ((false, 0), []) ∧
    simplifyFile true false 1000 1 (strL ("n.md")) (strL ("hello")) = ((false, 0), []) :=
  ⟨(noop_short_circuit_no_writes (strL ("[[X]]")) (strL ("X")) false true true false
      (strL ("n.md")) (strL ("[[X]]")) 1000 1).1 (by decide),
   (noop_short_circuit_no_writes (strL ("[[X]]")) (strL ("X")) false true true false
      (strL ("n.md")) (strL ("hello")) 1000 1).2 (by decide)⟩

/-- Claim C6, counterexample: a batch containing an unreadable file
produces a report identical to the one obtained when that file reads
cleanly with no matching content — the errored path appears nowhere in the
final report, which records only modified files, a total, and a file
count. -/
theorem batch_report_omits_errored_path :
    processVault true false
        [(strL ("a.md"), ReadResult.unreadable),
         (strL ("b.md"), ReadResult.utf8 (strL ("x #done(1) y")))] =
      ([(strL ("b.md"), 1)], 1, 2) ∧
    processVault true false
        [(strL ("a.md"), ReadResult.unreadable),
         (strL ("b.md"), ReadResult.utf8 (strL ("x #done(1) y")))] =
      processVault true false
        [(strL ("a.md"), ReadResult.utf8 []),
         (strL ("b.md"), ReadResult.utf8 (strL ("x #done(1) y")))] := by
  constructor <;> decide

/-- Claim C6, amended: every per-file error is caught inside
`clean_done_tags` (the file yields `(False, 0)` and no write) and the
batch proceeds through every file — the report's file count always equals
the number of enumerated files, and inserting an unreadable file anywhere
changes nothing in the report except that count.  But the error is not
recorded in any per-file outcome, and the final report does not list
errored paths. -/
theorem per_file_error_caught_batch_continues :
    ∀ (b d : Bool),
      (∀ files, (processVault b d files).2.2 = files.length) ∧
      (∀ pre post p,
        processVault b d (pre ++ (p, ReadResult.unreadable) :: post) =
          ((processVault b d (pre ++ post)).1, (processVault b d (pre ++ post)).2.1,
            (processVault b d (pre ++ post)).2.2 + 1)) := by
  intro b d
  constructor
  · intro files
    induction files with
    | nil => rfl
    | cons f t ih => simp [processVault, ih]
  · intro pre post p
    induction pre with
    | nil => simp [processVault, cleanDoneFile]
    | cons f t ih => simp [processVault, ih]

/-- Claim C7: when UTF-8 decoding fails and the latin-1 fallback read is
used, every write `clean_done_tags` performs for that file (backup and
rewrite) is in latin-1; when the UTF-8 read succeeds, every write is in
UTF-8 — a given file's encoding round-trips consistently within one run. -/
theorem clean_done_fallback_encoding_roundtrip :
    ∀ (path s : List Char) (b d : Bool) (w : FsWrite),
      (w ∈ (cleanDoneFile path (ReadResult.latin1Fallback s) b d).2 →
        w.enc = Enc.latin1) ∧
      (w ∈ (cleanDoneFile path (ReadResult.utf8 s) b d).2 → w.enc = Enc.utf8) := by
  intro path s b d w
  constructor <;> intro hw
  · by_cases h1 : (cleanDoneTransform s).2 = 0
    · simp [cleanDoneFile, h1] at hw
    · by_cases h2 : s ≠ (cleanDoneTransform s).1
      · simp only [cleanDoneFile, if_neg h1, if_pos h2] at hw
        exact writeSet_enc _ _ _ _ _ _ _ _ hw
      · simp [cleanDoneFile, h1, h2] at hw
  · by_cases h1 : (cleanDoneTransform s).2 = 0
    · simp [cleanDoneFile, h1] at hw
    · by_cases h2 : s ≠ (cleanDoneTransform s).1
      · simp only [cleanDoneFile, if_neg h1, if_pos h2] at hw
        exact writeSet_enc _ _ _ _ _ _ _ _ hw
      · simp [cleanDoneFile, h1, h2] at hw

/-- Witness for C7: a concrete file that only decodes as latin-1 gets its
backup written back in latin-1. -/
theorem clean_done_fallback_encoding_roundtrip_witness :
    (⟨strL ("f.md.backup"), Enc.latin1, strL ("a #done(1) b")⟩ : FsWrite).enc =
      Enc.latin1 :=
  (clean_done_fallback_encoding_roundtrip (strL ("f.md")) (strL ("a #done(1) b"))
      true false ⟨strL ("f.md.backup"), Enc.latin1, strL ("a #done(1) b")⟩).1
    (by decide)

/-- Claim C8: the tag-report table of `generate_tag_report` is the
min-count filtered multiset of tag counts arranged in the key order
"descending count, ties broken by ascending lexicographic tag text" —
i.e. the rows are a permutation of the filtered items and are sorted by
`keyRel`, which (being total and transitive on these keys) determines the
ordering. -/
theorem tag_report_rows_sorted_desc_count_asc_tag :
    ∀ (items : List (List Char × Nat)) (minCount : Nat),
      List.Sorted keyRel (generateTagRows items minCount) ∧
      (generateTagRows items minCount).Perm
        (items.filter (fun it => decide (minCount ≤ it.2))) := by
  intro items minCount
  constructor
  · haveI : IsTotal (List Char × Nat) keyRel := ⟨keyRel_total⟩
    haveI : IsTrans (List Char × Nat) keyRel := ⟨keyRel_trans⟩
    exact List.sorted_insertionSort keyRel _
  · exact List.perm_insertionSort keyRel _

/-- Claim C9: when the configured tag does not occur as a literal
substring of the file's content, `convert_tag_to_wikilink` returns
`(False, 0)` and performs no filesystem write, for every combination of
the backup, dry-run, convert-yaml, and exact-match flags. -/
theorem missing_tag_skips_file_untouched :
    ∀ (tag wl : List Char) (cy em b d : Bool) (path content : List Char),
      containsSub content tag = false →
      convertFile tag wl cy em b d path content = ((false, 0), []) := by
  intro tag wl cy em b d path content h
  unfold convertFile
  simp [h]

/-- Witness for C9 at a concrete input. -/
theorem missing_tag_skips_file_untouched_witness :
    convertFile (strL ("#x")) (strL ("X")) true false false true
        (strL ("n.md")) (strL ("hello")) = ((false, 0), []) :=
  missing_tag_skips_file_untouched (strL ("#x")) (strL ("X")) true false false true
    (strL ("n.md")) (strL ("hello")) (by decide)

/-- Claim C10: a single invocation of `fix_navigation_links` reports at
most one fix on any input, and on a file with two distinct broken rows it
rewrites only the first one found by the search (literal replacement of
that row's text), leaving the second distinct broken row untouched. -/
theorem fix_navigation_at_most_one_fix :
    (∀ content : List Char, (fixNavContent content).2 ≤ 1) ∧
    fixNavContent (strL ("←← [[W1 |w1 / [[D1 |d1 / [[D2 |d2 / [[W2 |w2 →→\nmid\n←← [[W3 |w3 / [[D3 |d3 / [[D4 |d4 / [[W4 |w4 →→")) =
      (strL ("←← [[01 - Calendar/Weekly/W1 |w1]] / [[01 - Calendar/Daily/D1 |d1]] / [[01 - Calendar/Daily/D2 |d2]] / [[01 - Calendar/Weekly/W2 |w2]] →→\nmid\n←← [[W3 |w3 / [[D3 |d3 / [[D4 |d4 / [[W4 |w4 →→"), 1) := by
  constructor
  · intro content
    unfold fixNavContent
    rcases hs : reSearch navRe content with _ | m
    · simp
    · simp only
      split
      · simp
      · simp
  · decide

end OV
